import Mathlib

/-!
Verification of the ARIVIAv2 landing-page script (src/main.js).

The script wires a Three.js scene (camera, renderer, lights, an async GLB
load with a fallback mesh, a per-frame render loop) to GSAP scroll
animations (a pinned hero timeline, a polled model-rotation attachment, a
responsive horizontal-scroll section, and a pointer-tracking card effect).

We embed the script shallowly: the page state is a record, the browser
event loop is a list of events folded through a step function, and library
calls (gsap.to, gsap.from, ScrollTrigger configs) are recorded as data.
Numeric values are rationals; Math.sin is an abstract parameter f with the
bound on its range supplied as a hypothesis where needed; Math.PI is the
exact rational value of the double-precision constant.
-/

namespace Arivia

/-- Rational value of the JavaScript double Math.PI (884279719003555 / 2^48). -/
def mathPI : ℚ := 884279719003555 / 281474976710656

/-- Three-component vector with rational coordinates (THREE.Vector3). -/
structure Vec3 where
  x : ℚ
  y : ℚ
  z : ℚ
deriving DecidableEq, Repr

def Vec3.zero : Vec3 := ⟨0, 0, 0⟩

/-- Componentwise addition (Vector3.add). -/
def Vec3.add (a b : Vec3) : Vec3 := ⟨a.x + b.x, a.y + b.y, a.z + b.z⟩

/-- Componentwise subtraction (Vector3.sub). -/
def Vec3.sub (a b : Vec3) : Vec3 := ⟨a.x - b.x, a.y - b.y, a.z - b.z⟩

/-- Componentwise minimum (Vector3.min). -/
def Vec3.minv (a b : Vec3) : Vec3 := ⟨min a.x b.x, min a.y b.y, min a.z b.z⟩

/-- Componentwise maximum (Vector3.max). -/
def Vec3.maxv (a b : Vec3) : Vec3 := ⟨max a.x b.x, max a.y b.y, max a.z b.z⟩

/-- Scalar multiple (Vector3.multiplyScalar). -/
def Vec3.smul (s : ℚ) (a : Vec3) : Vec3 := ⟨s * a.x, s * a.y, s * a.z⟩

/-- Material parameters (THREE.MeshStandardMaterial). -/
structure Material where
  colorHex : ℕ
  roughness : ℚ
  metalness : ℚ
  wireframe : Bool
deriving DecidableEq, Repr

/-- Geometry of an object: either mesh points read from the loaded asset
file, or a procedural icosahedron given by its constructor arguments
(THREE.IcosahedronGeometry radius detail). -/
inductive GeoDesc where
  | loaded (pts : List Vec3)
  | icosahedron (radius : ℚ) (detail : ℕ)
deriving DecidableEq, Repr

/-- A 3D object (THREE.Object3D / Mesh): transform plus geometry and
material. Geometry points are in local space; world points add the
object position. -/
structure Obj where
  position : Vec3
  rotation : Vec3
  geo : GeoDesc
  material : Material
deriving DecidableEq, Repr

/-- Local-space mesh points of an object (empty for procedural geometry,
whose exact vertices the claims never inspect). -/
def Obj.localPts (o : Obj) : List Vec3 :=
  match o.geo with
  | .loaded pts => pts
  | .icosahedron _ _ => []

/-- World-space mesh points: local points translated by the object position. -/
def Obj.worldPts (o : Obj) : List Vec3 :=
  o.localPts.map (fun p => p.add o.position)

/-- Axis-aligned bounding box (THREE.Box3). -/
structure Box3 where
  lo : Vec3
  hi : Vec3
deriving DecidableEq, Repr

/-- Expand a box to contain one more point (Box3.expandByPoint). -/
def Box3.expand (b : Box3) (p : Vec3) : Box3 :=
  ⟨b.lo.minv p, b.hi.maxv p⟩

/-- Bounding box of a point list; none for the empty list (an empty Box3). -/
def bboxOf (pts : List Vec3) : Option Box3 :=
  match pts with
  | [] => none
  | p :: rest => some (rest.foldl Box3.expand ⟨p, p⟩)

/-- Center of a box (Box3.getCenter): midpoint of lo and hi; the zero
vector for an empty box, as in Three.js. -/
def boxCenter (b : Option Box3) : Vec3 :=
  match b with
  | none => Vec3.zero
  | some b => Vec3.smul (1/2) (b.lo.add b.hi)

/-- Bounding-box center of the world-space points of an object
(Box3.setFromObject followed by getCenter). -/
def worldCenter (o : Obj) : Vec3 :=
  boxCenter (bboxOf o.worldPts)

/-- A GSAP animated-property value: numeric, or a CSS string such as
a percentage or viewport-width expression. -/
inductive PropVal where
  | num (q : ℚ)
  | str (s : String)
deriving DecidableEq, Repr

/-- A ScrollTrigger configuration record as passed to gsap. -/
structure STConfig where
  trigger : String
  startPos : String
  endPos : Option String
  scrub : Option ℚ
  pin : Bool
deriving DecidableEq, Repr

/-- A recorded gsap animation call (gsap.to, gsap.from, or a timeline
segment): its target, animated properties, and options. -/
structure Tween where
  target : String
  isFrom : Bool
  props : List (String × PropVal)
  duration : Option ℚ
  repeatCount : Option ℤ
  ease : Option String
  delay : Option ℚ
  scrollTrigger : Option STConfig
  posLabel : Option String
deriving DecidableEq, Repr

/-- A gsap timeline: its scrollTrigger configuration and its segments. -/
structure Timeline where
  config : STConfig
  segments : List Tween
deriving DecidableEq, Repr

/-- Identity of the object the shared model variable can point to: the
loaded asset scene or the fallback mesh. The JavaScript variable holds an
object reference; mutating the pointee does not change the reference. -/
inductive ObjRef where
  | asset
  | fallback
deriving DecidableEq, Repr

/-- Camera state relevant to the claims (THREE.PerspectiveCamera): aspect
ratio and a projection-matrix version counter bumped by
updateProjectionMatrix. -/
structure Camera where
  aspect : ℚ
  projVersion : ℕ
deriving DecidableEq, Repr

/-- Renderer state relevant to the claims (THREE.WebGLRenderer): reported
size and pixel ratio. -/
structure Renderer where
  width : ℚ
  height : ℚ
  pixelRatio : ℚ
deriving DecidableEq, Repr

/-- Viewport sizes record kept by the script. -/
structure Sizes where
  width : ℚ
  height : ℚ
deriving DecidableEq, Repr

/-- Whole page state threaded through the event loop. -/
structure PageState where
  model : Option ObjRef
  assetObj : Option Obj
  fallbackObj : Option Obj
  scene : List ObjRef
  tweens : List Tween
  rotAttached : Bool
  rotPending : Bool
  renderCount : ℕ
  sizes : Sizes
  camera : Camera
  renderer : Renderer
deriving DecidableEq, Repr

/-- Events delivered by the browser to the script after initial
evaluation: the terminal and progress callbacks of loader.load, a display
frame (running the requestAnimationFrame callbacks: animate and, while
pending, the rotateModel retry), and a window resize. -/
inductive Event where
  | load (g : Obj)
  | loadError (err : String)
  | progress (loaded total : ℚ)
  | frame (now : ℚ)
  | resize (w h dpr : ℚ)
deriving DecidableEq, Repr

/-- Terminal outcomes of the asset load: success or failure. -/
def Event.isTerminal : Event → Bool
  | .load _ => true
  | .loadError _ => true
  | _ => false

/-- The idle rotation started by the success callback:
gsap.to(model.rotation, y: Math.PI * 2, duration: 20, repeat: -1,
ease: none). -/
def idleRotationTween : Tween :=
  { target := "model.rotation", isFrom := false
    props := [("y", PropVal.num (mathPI * 2))]
    duration := some 20, repeatCount := some (-1), ease := some "none"
    delay := none, scrollTrigger := none, posLabel := none }

/-- The scroll-driven rotation attached by rotateModel:
gsap.to(model.rotation, z: Math.PI * 0.5, scrollTrigger: trigger .hero,
start top top, end +=150%, scrub 1). -/
def rotateTween : Tween :=
  { target := "model.rotation", isFrom := false
    props := [("z", PropVal.num (mathPI * (1/2)))]
    duration := none, repeatCount := none, ease := none, delay := none
    scrollTrigger := some { trigger := ".hero", startPos := "top top"
                            endPos := some "+=150%", scrub := some 1, pin := false }
    posLabel := none }

/-- The hero-info reveal registered at script evaluation:
gsap.to(.hero-info, opacity: 1, y: 0, duration: 1, delay: 0.5). -/
def heroInfoRevealTween : Tween :=
  { target := ".hero-info", isFrom := false
    props := [("opacity", PropVal.num 1), ("y", PropVal.num 0)]
    duration := some 1, repeatCount := none, ease := none, delay := some (1/2)
    scrollTrigger := none, posLabel := none }

/-- The hero scroll timeline tl with its four segments, each placed at the
shared position label start. -/
def tl : Timeline :=
  { config := { trigger := ".hero", startPos := "top top"
                endPos := some "+=150%", scrub := some 1, pin := true }
    segments :=
      [ { target := ".line-1", isFrom := false
          props := [("x", PropVal.str "-150%"), ("opacity", PropVal.num 0)]
          duration := some 1, repeatCount := none, ease := none, delay := none
          scrollTrigger := none, posLabel := some "start" },
        { target := ".line-3", isFrom := false
          props := [("x", PropVal.str "150%"), ("opacity", PropVal.num 0)]
          duration := some 1, repeatCount := none, ease := none, delay := none
          scrollTrigger := none, posLabel := some "start" },
        { target := ".line-2", isFrom := false
          props := [("scale", PropVal.num 15), ("opacity", PropVal.num 0)]
          duration := some (3/2), repeatCount := none, ease := some "power2.inOut"
          delay := none, scrollTrigger := none, posLabel := some "start" },
        { target := ".hero-info", isFrom := false
          props := [("y", PropVal.num 100), ("opacity", PropVal.num 0)]
          duration := some (1/2), repeatCount := none, ease := none, delay := none
          scrollTrigger := none, posLabel := some "start" } ] }

/-- The horizontal-strip tween registered by the desktop matchMedia branch:
gsap.to(wrapper, x: -250vw, ease: none, scrollTrigger: trigger
horizontalSection, pin, scrub 1, start top top, end +=3000). -/
def horizontalTween : Tween :=
  { target := ".horizontal-wrapper", isFrom := false
    props := [("x", PropVal.str "-250vw")]
    duration := none, repeatCount := none, ease := some "none", delay := none
    scrollTrigger := some { trigger := ".horizontal-section", startPos := "top top"
                            endPos := some "+=3000", scrub := some 1, pin := true }
    posLabel := none }

/-- The per-card reveal registered by the mobile matchMedia branch:
gsap.from(card, y: 50, opacity: 0, duration: 0.8, scrollTrigger: trigger
card, start top 85%). -/
def cardRevealTween (card : String) : Tween :=
  { target := card, isFrom := true
    props := [("y", PropVal.num 50), ("opacity", PropVal.num 0)]
    duration := some (4/5), repeatCount := none, ease := none, delay := none
    scrollTrigger := some { trigger := card, startPos := "top 85%"
                            endPos := none, scrub := none, pin := false }
    posLabel := none }

/-- The fallback mesh built by the error callback: a wireframe icosahedron
of radius 1.5, detail 0, with the fixed dark metallic material. -/
def fallbackMesh : Obj :=
  { position := Vec3.zero, rotation := Vec3.zero
    geo := GeoDesc.icosahedron (3/2) 0
    material := { colorHex := 0x111111, roughness := 3/10
                  metalness := 8/10, wireframe := true } }

/-- Look up the object a reference points to. -/
def PageState.getObj (st : PageState) : ObjRef → Option Obj
  | .asset => st.assetObj
  | .fallback => st.fallbackObj

/-- Overwrite the y component of the position of an object (the
model.position.y assignment in animate). -/
def setPosY (o : Obj) (v : ℚ) : Obj :=
  { o with position := { o.position with y := v } }

/-- Apply setPosY to the object a reference points to. -/
def PageState.setObjPosY (st : PageState) (r : ObjRef) (v : ℚ) : PageState :=
  match r with
  | .asset => { st with assetObj := st.assetObj.map (fun o => setPosY o v) }
  | .fallback => { st with fallbackObj := st.fallbackObj.map (fun o => setPosY o v) }

/-- Success callback of loader.load: store the loaded scene in the shared
variable, center it by subtracting its world bounding-box center from its
position, add it to the scene, and start the idle rotation tween. -/
def onLoadSuccess (g : Obj) (st : PageState) : PageState :=
  let center := worldCenter g
  let centered := { g with position := g.position.sub center }
  { st with model := some ObjRef.asset
            assetObj := some centered
            scene := st.scene ++ [ObjRef.asset]
            tweens := st.tweens ++ [idleRotationTween] }

/-- Error callback of loader.load: log the error (not modeled), build the
fallback mesh, add it to the scene, and point the shared variable at it.
The err argument is only logged, never used to build the mesh. -/
def onLoadError (err : String) (st : PageState) : PageState :=
  { st with fallbackObj := some fallbackMesh
            scene := st.scene ++ [ObjRef.fallback]
            model := some ObjRef.fallback }

/-- Resize listener: update the sizes record, set the camera aspect to
width / height, update the projection matrix, resize the renderer, and
re-clamp the pixel ratio to min(devicePixelRatio, 2). -/
def onResize (w h dpr : ℚ) (st : PageState) : PageState :=
  { st with sizes := { width := w, height := h }
            camera := { aspect := w / h, projVersion := st.camera.projVersion + 1 }
            renderer := { width := w, height := h, pixelRatio := min dpr 2 } }

/-- One run of the animate callback at wall-clock time now, with f
standing for Math.sin: reschedule (implicit), set the model y position to
sin(now * 0.001) * 0.1 when the shared variable is set, and render. -/
def animateTick (f : ℚ → ℚ) (now : ℚ) (st : PageState) : PageState :=
  let st1 := match st.model with
    | none => st
    | some r => st.setObjPosY r (f (now * 0.001) * 0.1)
  { st1 with renderCount := st1.renderCount + 1 }

/-- One run of the rotateModel retry, when a run is pending: if the shared
variable is set, attach the scroll-driven rotation tween and stop;
otherwise reschedule for the next frame. -/
def rotateRetry (st : PageState) : PageState :=
  if st.rotPending then
    match st.model with
    | some _ => { st with rotAttached := true, rotPending := false
                          tweens := st.tweens ++ [rotateTween] }
    | none => st
  else st

/-- A display frame: run the requestAnimationFrame callbacks registered in
script order (animate first, then the rotateModel retry while pending). -/
def frameStep (f : ℚ → ℚ) (now : ℚ) (st : PageState) : PageState :=
  rotateRetry (animateTick f now st)

/-- Step the page state by one browser event. -/
def step (f : ℚ → ℚ) (st : PageState) (e : Event) : PageState :=
  match e with
  | .load g => onLoadSuccess g st
  | .loadError err => onLoadError err st
  | .progress _ _ => st
  | .frame now => frameStep f now st
  | .resize w h dpr => onResize w h dpr st

/-- Page state at the end of script evaluation, for an initial viewport of
width w, height h and device pixel ratio dpr: the shared variable is null,
the first synchronous animate() call has rendered once, the first
synchronous rotateModel() call has found the variable null and scheduled a
retry, the hero-info reveal tween is registered, and the load is in
flight. -/
def initState (w h dpr : ℚ) : PageState :=
  { model := none, assetObj := none, fallbackObj := none
    scene := []
    tweens := [heroInfoRevealTween]
    rotAttached := false, rotPending := true
    renderCount := 1
    sizes := { width := w, height := h }
    camera := { aspect := w / h, projVersion := 0 }
    renderer := { width := w, height := h, pixelRatio := min dpr 2 } }

/-- Fold a list of browser events from a starting state. -/
def runFrom (f : ℚ → ℚ) (st : PageState) (es : List Event) : PageState :=
  es.foldl (step f) st

/-- Page state after script evaluation on a 1920 by 1080 viewport followed
by a list of browser events. -/
def run (f : ℚ → ℚ) (es : List Event) : PageState :=
  runFrom f (initState 1920 1080 1) es

/-- The ScrollTrigger.matchMedia registration evaluated at a given
viewport width: the desktop branch (min-width 1024px) registers the
horizontal-strip tween when the wrapper and section elements exist; the
mobile branch (max-width 1023px) registers one reveal tween per card. -/
def matchMediaSetup (width : ℚ) (hasWrapper hasSection : Bool)
    (cards : List String) : List Tween :=
  (if 1024 ≤ width then
    (if hasWrapper && hasSection then [horizontalTween] else [])
   else [])
  ++ (if width ≤ 1023 then cards.map cardRevealTween else [])

/-- Bounding rectangle fields used by the mousemove listener
(getBoundingClientRect). -/
structure Rect where
  left : ℚ
  top : ℚ
deriving DecidableEq, Repr

/-- Format a pixel length the way the template literal does. -/
def pxStr (q : ℚ) : String := toString q ++ "px"

/-- The mousemove listener of a card: compute the pointer position
relative to the card rectangle and publish it as the custom style
variables. -/
def cardMouseMove (rect : Rect) (clientX clientY : ℚ) : List (String × String) :=
  let x := clientX - rect.left
  let y := clientY - rect.top
  [("--x", pxStr x), ("--y", pxStr y)]

/-- Constant zero function, standing in for Math.sin in concrete runs; it
agrees with the real sine at 0, the only point such runs sample. -/
def f0 : ℚ → ℚ := fun _ => 0

/-- A concrete loaded asset used in concrete runs: two mesh points on the
y axis, so its bounding-box center is (0, 5, 0). -/
def g0 : Obj :=
  { position := Vec3.zero, rotation := Vec3.zero
    geo := GeoDesc.loaded [⟨0, 4, 0⟩, ⟨0, 6, 0⟩]
    material := { colorHex := 0, roughness := 0, metalness := 0, wireframe := false } }

/-! ### Projection lemmas for the step functions -/

lemma setObjPosY_model (st : PageState) (r : ObjRef) (v : ℚ) :
    (st.setObjPosY r v).model = st.model := by
  cases r <;> rfl

lemma setObjPosY_rotPending (st : PageState) (r : ObjRef) (v : ℚ) :
    (st.setObjPosY r v).rotPending = st.rotPending := by
  cases r <;> rfl

lemma setObjPosY_rotAttached (st : PageState) (r : ObjRef) (v : ℚ) :
    (st.setObjPosY r v).rotAttached = st.rotAttached := by
  cases r <;> rfl

lemma setObjPosY_tweens (st : PageState) (r : ObjRef) (v : ℚ) :
    (st.setObjPosY r v).tweens = st.tweens := by
  cases r <;> rfl

lemma setObjPosY_renderCount (st : PageState) (r : ObjRef) (v : ℚ) :
    (st.setObjPosY r v).renderCount = st.renderCount := by
  cases r <;> rfl

lemma setObjPosY_getObj (st : PageState) (r : ObjRef) (v : ℚ) :
    (st.setObjPosY r v).getObj r = (st.getObj r).map (fun o => setPosY o v) := by
  cases r <;> rfl

lemma animateTick_model (f : ℚ → ℚ) (t : ℚ) (st : PageState) :
    (animateTick f t st).model = st.model := by
  rcases h : st.model with _ | r <;>
    simp [animateTick, h, setObjPosY_model]

lemma animateTick_rotPending (f : ℚ → ℚ) (t : ℚ) (st : PageState) :
    (animateTick f t st).rotPending = st.rotPending := by
  rcases h : st.model with _ | r <;>
    simp [animateTick, h, setObjPosY_rotPending]

lemma animateTick_rotAttached (f : ℚ → ℚ) (t : ℚ) (st : PageState) :
    (animateTick f t st).rotAttached = st.rotAttached := by
  rcases h : st.model with _ | r <;>
    simp [animateTick, h, setObjPosY_rotAttached]

lemma animateTick_tweens (f : ℚ → ℚ) (t : ℚ) (st : PageState) :
    (animateTick f t st).tweens = st.tweens := by
  rcases h : st.model with _ | r <;>
    simp [animateTick, h, setObjPosY_tweens]

lemma animateTick_renderCount (f : ℚ → ℚ) (t : ℚ) (st : PageState) :
    (animateTick f t st).renderCount = st.renderCount + 1 := by
  rcases h : st.model with _ | r <;>
    simp [animateTick, h, setObjPosY_renderCount]

lemma rotateRetry_model (st : PageState) :
    (rotateRetry st).model = st.model := by
  cases hp : st.rotPending <;> cases hm : st.model <;>
    simp [rotateRetry, hp, hm]

lemma rotateRetry_assetObj (st : PageState) :
    (rotateRetry st).assetObj = st.assetObj := by
  cases hp : st.rotPending <;> cases hm : st.model <;>
    simp [rotateRetry, hp, hm]

lemma rotateRetry_fallbackObj (st : PageState) :
    (rotateRetry st).fallbackObj = st.fallbackObj := by
  cases hp : st.rotPending <;> cases hm : st.model <;>
    simp [rotateRetry, hp, hm]

lemma rotateRetry_getObj (st : PageState) (r : ObjRef) :
    (rotateRetry st).getObj r = st.getObj r := by
  cases r <;>
    simp [PageState.getObj, rotateRetry_assetObj, rotateRetry_fallbackObj]

lemma rotateRetry_renderCount (st : PageState) :
    (rotateRetry st).renderCount = st.renderCount := by
  cases hp : st.rotPending <;> cases hm : st.model <;>
    simp [rotateRetry, hp, hm]

lemma frameStep_model (f : ℚ → ℚ) (t : ℚ) (st : PageState) :
    (frameStep f t st).model = st.model := by
  simp [frameStep, rotateRetry_model, animateTick_model]

/-- Events other than the two terminal load callbacks never write the
shared model variable. -/
lemma step_model_of_not_terminal (f : ℚ → ℚ) (st : PageState) (e : Event)
    (h : e.isTerminal = false) : (step f st e).model = st.model := by
  cases e with
  | load g => simp [Event.isTerminal] at h
  | loadError err => simp [Event.isTerminal] at h
  | progress l t => rfl
  | frame t => exact frameStep_model f t st
  | resize w hh dpr => rfl

lemma runFrom_model_of_not_terminal (f : ℚ → ℚ) (st : PageState)
    (es : List Event) (h : ∀ e ∈ es, e.isTerminal = false) :
    (runFrom f st es).model = st.model := by
  induction es generalizing st with
  | nil => rfl
  | cons e es ih =>
      have he : e.isTerminal = false := h e (List.mem_cons_self e es)
      have hrest : ∀ x ∈ es, x.isTerminal = false :=
        fun x hx => h x (List.mem_cons_of_mem e hx)
      simp only [runFrom, List.foldl_cons]
      rw [show (List.foldl (step f) (step f st e) es) = runFrom f (step f st e) es from rfl,
        ih (step f st e) hrest, step_model_of_not_terminal f st e he]

lemma runFrom_append (f : ℚ → ℚ) (st : PageState) (as bs : List Event) :
    runFrom f st (as ++ bs) = runFrom f (runFrom f st as) bs := by
  simp [runFrom, List.foldl_append]

lemma run_append (f : ℚ → ℚ) (as bs : List Event) :
    run f (as ++ bs) = runFrom f (run f as) bs := by
  simp [run, runFrom_append]

/-! ### Invariant for the rotateModel retry -/

lemma idleRotationTween_ne_rotateTween : idleRotationTween ≠ rotateTween := by
  intro h
  have hd := congrArg (fun tw => tw.duration) h
  simp [idleRotationTween, rotateTween] at hd

lemma heroInfoRevealTween_ne_rotateTween : heroInfoRevealTween ≠ rotateTween := by
  intro h
  have ht := congrArg (fun tw => tw.target) h
  simp [heroInfoRevealTween, rotateTween] at ht

/-- Invariant tying the retry bookkeeping together: a retry is pending
exactly while the rotation is not yet attached, nothing is attached while
the shared variable is null, and the rotation tween is registered exactly
once when attached and never otherwise. -/
def RotInv (st : PageState) : Prop :=
  st.rotPending = !st.rotAttached
  ∧ (st.model = none → st.rotAttached = false)
  ∧ st.tweens.count rotateTween = (if st.rotAttached then 1 else 0)

lemma rotInv_init (w h dpr : ℚ) : RotInv (initState w h dpr) := by
  refine ⟨rfl, fun _ => rfl, ?_⟩
  simp [initState, List.count_singleton', heroInfoRevealTween_ne_rotateTween]

lemma rotInv_step (f : ℚ → ℚ) (st : PageState) (e : Event) (h : RotInv st) :
    RotInv (step f st e) := by
  obtain ⟨h1, h2, h3⟩ := h
  cases e with
  | load g =>
      refine ⟨h1, fun hc => by simp [step, onLoadSuccess] at hc, ?_⟩
      simp [step, onLoadSuccess, List.count_append, List.count_singleton',
        idleRotationTween_ne_rotateTween, h3]
  | loadError err =>
      refine ⟨h1, fun hc => by simp [step, onLoadError] at hc, ?_⟩
      simp [step, onLoadError, h3]
  | progress l t => exact ⟨h1, h2, h3⟩
  | resize w hh dpr => exact ⟨h1, h2, h3⟩
  | frame t =>
      have hm : (animateTick f t st).model = st.model := animateTick_model f t st
      have hp : (animateTick f t st).rotPending = st.rotPending :=
        animateTick_rotPending f t st
      have ha : (animateTick f t st).rotAttached = st.rotAttached :=
        animateTick_rotAttached f t st
      have hw : (animateTick f t st).tweens = st.tweens := animateTick_tweens f t st
      show RotInv (rotateRetry (animateTick f t st))
      cases hpv : st.rotPending with
      | false =>
          have hat : st.rotAttached = true := by
            cases hav : st.rotAttached with
            | true => rfl
            | false => rw [hav, hpv] at h1; simp at h1
          constructor
          · simp [rotateRetry, hp, hpv, ha, hw, hat, hm, h1]
          constructor
          · intro hc
            rw [rotateRetry_model] at hc
            rw [hm] at hc
            exact absurd (h2 hc) (by simp [hat])
          · simp [rotateRetry, hp, hpv, ha, hw, hat, hm, h3]
      | true =>
          cases hmv : st.model with
          | none =>
              constructor
              · simp [rotateRetry, hp, hpv, hm, hmv, ha, h1, h2 hmv]
              constructor
              · intro _
                simp [rotateRetry, hp, hpv, hm, hmv, ha, h2 hmv]
              · simp [rotateRetry, hp, hpv, hm, hmv, ha, hw, h3]
          | some r =>
              have hat : st.rotAttached = false := by
                cases hav : st.rotAttached with
                | false => rfl
                | true => rw [hav, hpv] at h1; simp at h1
              constructor
              · simp [rotateRetry, hp, hpv, hm, hmv, ha]
              constructor
              · intro hc
                simp [rotateRetry, hp, hpv, hm, hmv, ha] at hc
              · simp [rotateRetry, hp, hpv, hm, hmv, ha, hw, List.count_append,
                  List.count_singleton', h3, hat]

lemma rotInv_runFrom (f : ℚ → ℚ) (st : PageState) (es : List Event)
    (h : RotInv st) : RotInv (runFrom f st es) := by
  induction es generalizing st with
  | nil => exact h
  | cons e es ih =>
      simp only [runFrom, List.foldl_cons]
      exact ih (step f st e) (rotInv_step f st e h)

lemma rotInv_run (f : ℚ → ℚ) (es : List Event) : RotInv (run f es) :=
  rotInv_runFrom f _ es (rotInv_init 1920 1080 1)

/-! ### Bounding-box translation lemmas -/

/-- Translate a box componentwise. -/
def Box3.translate (b : Box3) (t : Vec3) : Box3 :=
  ⟨b.lo.add t, b.hi.add t⟩

lemma expand_translate (b : Box3) (p t : Vec3) :
    Box3.expand (b.translate t) (p.add t) = (Box3.expand b p).translate t := by
  simp only [Box3.translate, Box3.expand, Vec3.add, Vec3.minv, Vec3.maxv,
    Box3.mk.injEq, Vec3.mk.injEq]
  simp [min_add_add_right, max_add_add_right]

lemma foldl_expand_translate (l : List Vec3) (t : Vec3) (b : Box3) :
    (l.map (fun p => p.add t)).foldl Box3.expand (b.translate t)
      = (l.foldl Box3.expand b).translate t := by
  induction l generalizing b with
  | nil => rfl
  | cons p ps ih =>
      simp only [List.map_cons, List.foldl_cons, expand_translate]
      exact ih (Box3.expand b p)

lemma bboxOf_map_add (l : List Vec3) (t : Vec3) :
    bboxOf (l.map (fun p => p.add t)) = (bboxOf l).map (fun b => b.translate t) := by
  cases l with
  | nil => rfl
  | cons p ps =>
      simp only [List.map_cons, bboxOf]
      rw [show (⟨p.add t, p.add t⟩ : Box3) = Box3.translate ⟨p, p⟩ t from rfl,
        foldl_expand_translate]
      rfl

lemma boxCenter_translate (b : Box3) (t : Vec3) :
    boxCenter (some (b.translate t)) = (boxCenter (some b)).add t := by
  simp only [boxCenter, Box3.translate, Vec3.add, Vec3.smul, Vec3.mk.injEq]
  refine ⟨by ring, by ring, by ring⟩

/-- Bounding-box center of a translated nonempty point cloud: the center
translates along. -/
lemma boxCenter_bboxOf_map_add (l : List Vec3) (t : Vec3) (h : l ≠ []) :
    boxCenter (bboxOf (l.map (fun p => p.add t)))
      = (boxCenter (bboxOf l)).add t := by
  cases l with
  | nil => exact absurd rfl h
  | cons p ps =>
      rw [bboxOf_map_add]
      simp only [bboxOf, Option.map_some]
      exact boxCenter_translate _ t

/-- The world bounding-box center of an object with mesh points is its
local bounding-box center translated by the object position. -/
lemma worldCenter_eq_local_add (o : Obj) (h : o.localPts ≠ []) :
    worldCenter o = (boxCenter (bboxOf o.localPts)).add o.position := by
  unfold worldCenter Obj.worldPts
  exact boxCenter_bboxOf_map_add o.localPts o.position h

lemma animateTick_getObj (f : ℚ → ℚ) (t : ℚ) (st : PageState) (r : ObjRef)
    (hr : st.model = some r) :
    (animateTick f t st).getObj r
      = (st.getObj r).map (fun o => setPosY o (f (t * 0.001) * 0.1)) := by
  cases r <;>
    simp [animateTick, hr, PageState.setObjPosY, PageState.getObj]

lemma frameStep_assetObj_of_asset (f : ℚ → ℚ) (t : ℚ) (st : PageState)
    (h : st.model = some ObjRef.asset) :
    (frameStep f t st).assetObj
      = st.assetObj.map (fun o => setPosY o (f (t * 0.001) * 0.1)) := by
  simp [frameStep, rotateRetry_assetObj, animateTick, h, PageState.setObjPosY]

/-- Frame events keep the shared variable pointing at the asset and only
rewrite the y component of the asset position, leaving the rest of the
object alone. -/
lemma assetObj_after_frames (f : ℚ → ℚ) (g : Obj) :
    ∀ (es : List Event), (∀ e ∈ es, ∃ t, e = Event.frame t) →
    ∀ (st : PageState) (x z yv : ℚ), st.model = some ObjRef.asset →
    st.assetObj = some { g with position := ⟨x, yv, z⟩ } →
    (runFrom f st es).model = some ObjRef.asset
    ∧ ∃ yw, (runFrom f st es).assetObj = some { g with position := ⟨x, yw, z⟩ } := by
  intro es
  induction es with
  | nil =>
      intro _ st x z yv hm ho
      exact ⟨hm, yv, ho⟩
  | cons e es ih =>
      intro hes st x z yv hm ho
      obtain ⟨t, rfl⟩ := hes e (List.mem_cons_self e es)
      have hes2 : ∀ x ∈ es, ∃ t, x = Event.frame t :=
        fun x hx => hes x (List.mem_cons_of_mem _ hx)
      simp only [runFrom, List.foldl_cons]
      have hm2 : (step f st (Event.frame t)).model = some ObjRef.asset := by
        rw [show step f st (Event.frame t) = frameStep f t st from rfl,
          frameStep_model, hm]
      have ho2 : (step f st (Event.frame t)).assetObj
          = some { g with position := ⟨x, f (t * 0.001) * 0.1, z⟩ } := by
        rw [show step f st (Event.frame t) = frameStep f t st from rfl,
          frameStep_assetObj_of_asset f t st hm, ho]
        rfl
      exact ih hes2 (step f st (Event.frame t)) x z (f (t * 0.001) * 0.1) hm2 ho2

/-! ### Claim theorems -/

/-- C1: the shared model variable starts null, is written exactly once per
page lifetime — by the success callback (to the loaded asset) or by the
failure callback (to the fallback mesh), whichever terminal outcome occurs
first — and is never written again by any later event. The hypotheses say
that e is the single terminal load outcome of the trace, which is the
loader contract. -/
theorem C1_shared_reference_written_once (f : ℚ → ℚ) (es1 es2 : List Event)
    (e : Event) (h1 : ∀ x ∈ es1, x.isTerminal = false)
    (hterm : e.isTerminal = true) (h2 : ∀ x ∈ es2, x.isTerminal = false) :
    (run f []).model = none
    ∧ (run f es1).model = none
    ∧ (run f (es1 ++ [e])).model
        = some (match e with | .load _ => ObjRef.asset | _ => ObjRef.fallback)
    ∧ (run f (es1 ++ [e] ++ es2)).model = (run f (es1 ++ [e])).model := by
  have hmid : (run f es1).model = none := by
    rw [show run f es1 = runFrom f (initState 1920 1080 1) es1 from rfl,
      runFrom_model_of_not_terminal f _ es1 h1]
    rfl
  have hset : (run f (es1 ++ [e])).model
      = some (match e with | .load _ => ObjRef.asset | _ => ObjRef.fallback) := by
    rw [run_append f es1 [e],
      show runFrom f (run f es1) [e] = step f (run f es1) e from rfl]
    cases e with
    | load g => rfl
    | loadError err => rfl
    | progress l t => simp [Event.isTerminal] at hterm
    | frame t => simp [Event.isTerminal] at hterm
    | resize w hh dpr => simp [Event.isTerminal] at hterm
  refine ⟨rfl, hmid, hset, ?_⟩
  rw [run_append f (es1 ++ [e]) es2,
    runFrom_model_of_not_terminal f _ es2 h2]

/-- Witness for C1 on a concrete trace: a frame and a progress report,
then the failure outcome, then another frame. -/
theorem C1_witness :
    (run f0 []).model = none
    ∧ (run f0 [Event.frame 0, Event.progress 1 2]).model = none
    ∧ (run f0 ([Event.frame 0, Event.progress 1 2] ++ [Event.loadError "boom"])).model
        = some ObjRef.fallback
    ∧ (run f0 ([Event.frame 0, Event.progress 1 2] ++ [Event.loadError "boom"]
          ++ [Event.frame 1])).model
        = (run f0 ([Event.frame 0, Event.progress 1 2]
            ++ [Event.loadError "boom"])).model :=
  C1_shared_reference_written_once f0 [Event.frame 0, Event.progress 1 2]
    [Event.frame 1] (Event.loadError "boom") (by decide) rfl (by decide)

/-- C2: the rotateModel retry keeps itself scheduled once per frame while
the shared variable is null, attaches the scroll-driven rotation on the
first frame after the variable becomes non-null, registers the rotation
tween at most once (exactly once iff attached), and the attached tween
targets a quarter-turn around the z axis, scrubbed by the same trigger
region (trigger, start, end) as the hero timeline. -/
theorem C2_rotation_attach (f : ℚ → ℚ) (es : List Event) (t : ℚ) :
    ((run f es).model = none →
      (run f es).rotPending = true ∧ (run f es).rotAttached = false)
    ∧ ((run f es).model.isSome = true →
      (run f (es ++ [Event.frame t])).rotAttached = true)
    ∧ (run f es).tweens.count rotateTween
        = (if (run f es).rotAttached then 1 else 0)
    ∧ rotateTween.props = [("z", PropVal.num (mathPI * (1/2)))]
    ∧ rotateTween.scrollTrigger
        = some ⟨tl.config.trigger, tl.config.startPos, tl.config.endPos,
            some 1, false⟩ := by
  obtain ⟨i1, i2, i3⟩ := rotInv_run f es
  refine ⟨?_, ?_, i3, rfl, rfl⟩
  · intro hnone
    have ha := i2 hnone
    exact ⟨by rw [i1, ha]; rfl, ha⟩
  · intro hsome
    obtain ⟨r, hr⟩ := Option.isSome_iff_exists.mp hsome
    rw [run_append f es [Event.frame t],
      show runFrom f (run f es) [Event.frame t]
        = frameStep f t (run f es) from rfl]
    have hm : (animateTick f t (run f es)).model = some r := by
      rw [animateTick_model, hr]
    cases hp : (run f es).rotPending with
    | true =>
        simp [frameStep, rotateRetry, animateTick_rotPending, hp, hm]
    | false =>
        have hat : (run f es).rotAttached = true := by
          cases hav : (run f es).rotAttached with
          | true => rfl
          | false => rw [hav, hp] at i1; simp at i1
        simp [frameStep, rotateRetry, animateTick_rotPending, hp,
          animateTick_rotAttached, hat]

/-- Witness for C2: after the failure outcome the next frame attaches the
rotation; before any terminal outcome the retry is still pending. -/
theorem C2_witness :
    (run f0 ([Event.loadError "x"] ++ [Event.frame 0])).rotAttached = true
    ∧ (run f0 [Event.frame 0]).rotPending = true :=
  ⟨(C2_rotation_attach f0 [Event.loadError "x"] 0).2.1 rfl,
   ((C2_rotation_attach f0 [Event.frame 0] 0).1 rfl).1⟩

/-- C3: the success callback stores the loaded scene in the shared
variable, translates it so that its world bounding-box center is exactly
the origin (for every loaded object with at least one mesh point), adds it
to the scene, and registers the infinite linear 20-unit rotation to a full
turn around the y axis. -/
theorem C3_success_centers_and_spins (g : Obj) (st : PageState)
    (hg : g.localPts ≠ []) :
    ∃ o, (onLoadSuccess g st).assetObj = some o
      ∧ (onLoadSuccess g st).model = some ObjRef.asset
      ∧ worldCenter o = Vec3.zero
      ∧ (onLoadSuccess g st).scene = st.scene ++ [ObjRef.asset]
      ∧ (onLoadSuccess g st).tweens = st.tweens ++ [idleRotationTween]
      ∧ idleRotationTween.props = [("y", PropVal.num (mathPI * 2))]
      ∧ idleRotationTween.duration = some 20
      ∧ idleRotationTween.repeatCount = some (-1)
      ∧ idleRotationTween.ease = some "none" := by
  refine ⟨_, rfl, rfl, ?_, rfl, rfl, rfl, rfl, rfl, rfl⟩
  have hl : ({ g with position := g.position.sub (worldCenter g) } : Obj).localPts
      = g.localPts := rfl
  rw [worldCenter_eq_local_add _ (by rw [hl]; exact hg)]
  rw [hl, worldCenter_eq_local_add g hg]
  simp only [Vec3.add, Vec3.sub, Vec3.zero, Vec3.mk.injEq]
  refine ⟨by ring, by ring, by ring⟩

/-- Witness for C3 on a concrete asset whose center is (0, 5, 0): after
the success callback the stored object has bounding-box center at the
origin. -/
theorem C3_witness :
    ∃ o, (onLoadSuccess g0 (initState 1920 1080 1)).assetObj = some o
      ∧ worldCenter o = Vec3.zero :=
  (C3_success_centers_and_spins g0 (initState 1920 1080 1)
    (by simp [g0, Obj.localPts])).imp
    (fun o ho => ⟨ho.1, ho.2.2.1⟩)

/-- C4: the failure callback points the shared variable at the fallback
mesh, adds it to the scene, the fallback is a wireframe icosahedron of
radius 1.5 and detail 0 with the fixed material, and the result does not
depend on the error value in any way (the same state for every failure). -/
theorem C4_failure_fallback (err : String) (st : PageState) :
    (onLoadError err st).model = some ObjRef.fallback
    ∧ (onLoadError err st).fallbackObj = some fallbackMesh
    ∧ (onLoadError err st).scene = st.scene ++ [ObjRef.fallback]
    ∧ fallbackMesh.material.wireframe = true
    ∧ fallbackMesh.geo = GeoDesc.icosahedron (3/2) 0
    ∧ (∀ e1 e2 : String, onLoadError e1 st = onLoadError e2 st) :=
  ⟨rfl, rfl, rfl, rfl, rfl, fun _ _ => rfl⟩

/-- C5: after the resize handler runs for a new viewport of width w,
height h and device pixel ratio dpr, the camera aspect is w / h, the
projection matrix has been updated, the renderer size is (w, h), the pixel
ratio is re-clamped to min(dpr, 2), and the sizes record holds the new
dimensions; the resize event in the event loop runs exactly this
handler. -/
theorem C5_resize_updates_camera_and_renderer (f : ℚ → ℚ) (w h dpr : ℚ)
    (st : PageState) :
    (onResize w h dpr st).camera.aspect = w / h
    ∧ (onResize w h dpr st).camera.projVersion = st.camera.projVersion + 1
    ∧ (onResize w h dpr st).renderer.width = w
    ∧ (onResize w h dpr st).renderer.height = h
    ∧ (onResize w h dpr st).renderer.pixelRatio = min dpr 2
    ∧ (onResize w h dpr st).sizes.width = w
    ∧ (onResize w h dpr st).sizes.height = h
    ∧ step f st (Event.resize w h dpr) = onResize w h dpr st :=
  ⟨rfl, rfl, rfl, rfl, rfl, rfl, rfl, rfl⟩

/-- C6: a render-loop tick at wall-clock time t sets the y position of the
object the shared variable points to, to sin(t * 0.001) * 0.1, and
renders; a tick with a null shared variable still renders and changes
nothing else (the null case is a total, error-free step). -/
theorem C6_render_tick (f : ℚ → ℚ) (t : ℚ) (st : PageState) :
    (st.model = none →
      frameStep f t st = { st with renderCount := st.renderCount + 1 })
    ∧ (∀ r o, st.model = some r → st.getObj r = some o →
        (frameStep f t st).getObj r = some (setPosY o (f (t * 0.001) * 0.1))
        ∧ (setPosY o (f (t * 0.001) * 0.1)).position.y = f (t * 0.001) * 0.1
        ∧ (frameStep f t st).renderCount = st.renderCount + 1) := by
  constructor
  · intro hnone
    have h1 : animateTick f t st = { st with renderCount := st.renderCount + 1 } := by
      simp [animateTick, hnone]
    rw [frameStep, h1, rotateRetry, show ({ st with renderCount := st.renderCount + 1 }
      : PageState).model = none from hnone]
    cases hp : st.rotPending <;> simp [hp]
  · intro r o hr ho
    refine ⟨?_, rfl, ?_⟩
    · rw [frameStep, rotateRetry_getObj, animateTick_getObj f t st r hr, ho]
      rfl
    · rw [frameStep, rotateRetry_renderCount, animateTick_renderCount]

/-- Witness for C6: a tick after the failure outcome moves the fallback
mesh, and a tick on the initial state (null shared variable) only bumps
the render counter. -/
theorem C6_witness :
    (frameStep f0 0 (run f0 [Event.loadError "e"])).getObj ObjRef.fallback
      = some (setPosY fallbackMesh (f0 (0 * 0.001) * 0.1))
    ∧ frameStep f0 0 (initState 1920 1080 1)
      = { initState 1920 1080 1 with
            renderCount := (initState 1920 1080 1).renderCount + 1 } :=
  ⟨((C6_render_tick f0 0 (run f0 [Event.loadError "e"])).2 ObjRef.fallback
      fallbackMesh rfl rfl).1,
   (C6_render_tick f0 0 (initState 1920 1080 1)).1 rfl⟩

/-- C7: at or above the 1024px min-width breakpoint (with the wrapper and
section elements present) the matchMedia registration consists of exactly
the pinned horizontal-translation tween and no card reveals; below the
breakpoint it consists of exactly one reveal-on-enter animation per card
(a gsap.from with vertical offset 50 and opacity 0, triggered when the
card tops the 85% viewport line) and no horizontal tween. -/
theorem C7_responsive_breakpoint (cards : List String) (hw hs : Bool) :
    (∀ w : ℚ, 1024 ≤ w → matchMediaSetup w true true cards = [horizontalTween])
    ∧ (∀ w : ℚ, w ≤ 1023 →
        matchMediaSetup w hw hs cards = cards.map cardRevealTween)
    ∧ horizontalTween.props = [("x", PropVal.str "-250vw")]
    ∧ horizontalTween.scrollTrigger
        = some ⟨".horizontal-section", "top top", some "+=3000", some 1, true⟩
    ∧ (∀ card, cardRevealTween card
        = ⟨card, true, [("y", PropVal.num 50), ("opacity", PropVal.num 0)],
            some (4/5), none, none, none,
            some ⟨card, "top 85%", none, none, false⟩, none⟩) := by
  refine ⟨?_, ?_, rfl, rfl, fun _ => rfl⟩
  · intro w hw1024
    have hno : ¬ (w ≤ 1023) := by linarith
    simp [matchMediaSetup, hw1024, hno]
  · intro w hw1023
    have hno : ¬ ((1024 : ℚ) ≤ w) := by linarith
    simp [matchMediaSetup, hw1023, hno]

/-- Witness for C7 at the observed widths: 1200px gets the horizontal
tween, 800px gets the per-card reveals. -/
theorem C7_witness :
    matchMediaSetup 1200 true true [".h-card"] = [horizontalTween]
    ∧ matchMediaSetup 800 true true [".h-card"] = [cardRevealTween ".h-card"] :=
  ⟨(C7_responsive_breakpoint [".h-card"] true true).1 1200 (by norm_num),
   (C7_responsive_breakpoint [".h-card"] true true).2.1 800 (by norm_num)⟩

/-- C8: the hero timeline has exactly four property-animation segments,
every segment is placed at the single shared position label start (so they
play simultaneously): two opposite lateral x translations fading to
opacity 0, one scale-up to 15 fading to opacity 0, and one vertical y
translation fading to opacity 0; the timeline trigger region is pinned
with smoothed (scrub 1) scroll-to-progress mapping. -/
theorem C8_hero_timeline :
    tl.segments.length = 4
    ∧ tl.segments.map Tween.posLabel
        = [some "start", some "start", some "start", some "start"]
    ∧ tl.segments.map Tween.target = [".line-1", ".line-3", ".line-2", ".hero-info"]
    ∧ tl.segments.map Tween.props
        = [[("x", PropVal.str "-150%"), ("opacity", PropVal.num 0)],
           [("x", PropVal.str "150%"), ("opacity", PropVal.num 0)],
           [("scale", PropVal.num 15), ("opacity", PropVal.num 0)],
           [("y", PropVal.num 100), ("opacity", PropVal.num 0)]]
    ∧ tl.config = ⟨".hero", "top top", some "+=150%", some 1, true⟩ :=
  ⟨rfl, rfl, rfl, rfl, rfl⟩

/-- C9: for every pointer-move event over a card, the two published style
variables are the pointer position relative to the top-left corner of the
card rectangle, formatted in pixels; in particular a pointer 50 to the
right of and 30 below the corner publishes (50px, 30px). -/
theorem C9_pointer_style_vars (rect : Rect) (cx cy : ℚ) :
    cardMouseMove rect cx cy
      = [("--x", pxStr (cx - rect.left)), ("--y", pxStr (cy - rect.top))]
    ∧ cardMouseMove rect (rect.left + 50) (rect.top + 30)
      = [("--x", "50px"), ("--y", "30px")] := by
  refine ⟨rfl, ?_⟩
  simp only [cardMouseMove, add_sub_cancel_left, Prod.mk.injEq, List.cons.injEq,
    List.nil_eq, and_true, true_and]
  exact ⟨rfl, rfl⟩

/-- C10 (counterexample): the claim says the post-tick bounding-box center
y of the object is the sinusoid offset. At the concrete input sin := f0
(which agrees with the real sine at the sampled time 0), asset := g0
(original bounding-box center y = 5, satisfying the non-zero-y qualifier
of the claim) and one tick at time 0, the code yields center y = 5 while
the sinusoid offset is 0. -/
theorem C10_counterexample :
    (run f0 [Event.load g0, Event.frame 0]).assetObj.map (fun o => (worldCenter o).y)
      ≠ some (f0 (0 * 0.001) * 0.1)
    ∧ (worldCenter g0).y ≠ 0
    ∧ (f0 (0 * 0.001) : ℝ) = Real.sin ((0 * 0.001 : ℚ) : ℝ) := by
  have hc : (run f0 [Event.load g0, Event.frame 0]).assetObj.map
      (fun o => (worldCenter o).y) = some 5 := by
    simp [run, runFrom, step, onLoadSuccess, g0, worldCenter, Obj.worldPts,
      Obj.localPts, bboxOf, boxCenter, Box3.expand, Vec3.add, Vec3.sub,
      Vec3.minv, Vec3.maxv, Vec3.smul, Vec3.zero, initState, frameStep,
      animateTick, rotateRetry, PageState.setObjPosY, setPosY, f0]
    norm_num
  have hg : (worldCenter g0).y = 5 := by
    simp [g0, worldCenter, Obj.worldPts, Obj.localPts, bboxOf, boxCenter,
      Box3.expand, Vec3.add, Vec3.minv, Vec3.maxv, Vec3.smul, Vec3.zero]
    norm_num
  refine ⟨?_, ?_, ?_⟩
  · rw [hc]
    simp [f0]
  · rw [hg]
    norm_num
  · norm_num [f0, Real.sin_zero]

/-- C10 (amended): on every render-loop tick after the shared variable is
set, the y position of the object is overwritten with the sinusoid value,
so it always lies in [-0.1, 0.1]; the y component of the centering
translation of the success path is hence discarded from the first tick
onward — the bounding-box center y of the object is the sinusoid offset
plus the offset of the original bounding-box center of the asset above its
root position (worldCenter g minus the y of the position of g), not the
centered value 0. -/
theorem C10_tick_overwrites_centering (f : ℚ → ℚ) (hf : ∀ x, |f x| ≤ 1)
    (g : Obj) (hg : g.localPts ≠ []) (es : List Event)
    (hes : ∀ e ∈ es, ∃ t, e = Event.frame t) (t : ℚ) :
    ∃ o, (run f ([Event.load g] ++ es ++ [Event.frame t])).assetObj = some o
      ∧ o.position.y = f (t * 0.001) * 0.1
      ∧ -(0.1 : ℚ) ≤ o.position.y ∧ o.position.y ≤ 0.1
      ∧ (worldCenter o).y
          = f (t * 0.001) * 0.1 + ((worldCenter g).y - g.position.y) := by
  have h1 : (run f [Event.load g]).model = some ObjRef.asset := rfl
  have h2 : (run f [Event.load g]).assetObj
      = some { g with position := ⟨g.position.x - (worldCenter g).x,
          g.position.y - (worldCenter g).y,
          g.position.z - (worldCenter g).z⟩ } := rfl
  obtain ⟨hm3, yw, ho3⟩ :=
    assetObj_after_frames f g es hes (run f [Event.load g]) _ _ _ h1 h2
  have hrun : run f ([Event.load g] ++ es ++ [Event.frame t])
      = frameStep f t (runFrom f (run f [Event.load g]) es) := by
    rw [run_append f ([Event.load g] ++ es) [Event.frame t],
      run_append f [Event.load g] es]
    rfl
  have hfin : (run f ([Event.load g] ++ es ++ [Event.frame t])).assetObj
      = some { g with position := ⟨g.position.x - (worldCenter g).x,
          f (t * 0.001) * 0.1, g.position.z - (worldCenter g).z⟩ } := by
    rw [hrun, frameStep_assetObj_of_asset f t _ hm3, ho3]
    rfl
  have hb := hf (t * 0.001)
  rw [abs_le] at hb
  refine ⟨_, hfin, rfl, ?_, ?_, ?_⟩
  · show -(0.1 : ℚ) ≤ f (t * 0.001) * 0.1
    nlinarith [hb.1, hb.2]
  · show f (t * 0.001) * 0.1 ≤ (0.1 : ℚ)
    nlinarith [hb.1, hb.2]
  · have hlpts : ({ g with position := (⟨g.position.x - (worldCenter g).x,
        f (t * 0.001) * 0.1, g.position.z - (worldCenter g).z⟩ : Vec3) } : Obj).localPts
        = g.localPts := rfl
    rw [worldCenter_eq_local_add _ (by rw [hlpts]; exact hg), hlpts,
      worldCenter_eq_local_add g hg]
    simp only [Vec3.add]
    ring

/-- Witness for C10 (amended) at the concrete asset g0: after loading and
one tick at time 0, the stored object has y position equal to the sinusoid
value and bounding-box center y equal to that value plus the original
center offset. -/
theorem C10_witness :
    ∃ o, (run f0 ([Event.load g0] ++ [] ++ [Event.frame 0])).assetObj = some o
      ∧ o.position.y = f0 (0 * 0.001) * 0.1
      ∧ (worldCenter o).y
          = f0 (0 * 0.001) * 0.1 + ((worldCenter g0).y - g0.position.y) :=
  (C10_tick_overwrites_centering f0 (fun x => by simp [f0]) g0
    (by simp [g0, Obj.localPts]) [] (fun e he => absurd he (List.not_mem_nil e))
    0).imp
    (fun o ho => ⟨ho.1, ho.2.1, ho.2.2.2.2⟩)

end Arivia
